import Mathlib

/-!
Verification of the Ingress (create) Lambda of the
monitoring-lambda-with-opentelemetry pipeline, shallowly embedded from
`golang/apps/create/main.go`.  External effects (the S3 uploader, the
process-wide random generator, the wall clock) are passed in as explicit
oracles/parameters; the OpenTelemetry spans are modelled as records of the
attributes and events the code attaches to them, and the calls the handler
issues are collected in an effect trace.
-/

namespace LambdaOtel

/-- The domain record (`CustomObject` in both the Go and the Java sources):
`item` is the payload identifier, `isUpdated`/`isChecked` the stage flags. -/
structure CustomObject where
  item : String
  isUpdated : Bool
  isChecked : Bool
  deriving DecidableEq, Repr

/-- Minimal JSON value universe, enough for the records this pipeline
serializes with `encoding/json` / Gson. -/
inductive Json where
  | str : String → Json
  | bool : Bool → Json
  | num : Int → Json
  | obj : List (String × Json) → Json

/-- JSON string escaping (quote and backslash, as `encoding/json` does for
the characters that can occur here). -/
def jsonEscapeChar (c : Char) : String :=
  if c = '"' then "\\\"" else if c = '\\' then "\\\\" else String.singleton c

def jsonEscape (s : String) : String :=
  String.join (s.toList.map jsonEscapeChar)

mutual

/-- Rendering of a JSON value to its wire string. -/
def renderJson : Json → String
  | .str s => "\"" ++ jsonEscape s ++ "\""
  | .bool b => if b then "true" else "false"
  | .num n => toString n
  | .obj fields => "\x7b" ++ renderFields fields ++ "\x7d"

def renderFields : List (String × Json) → String
  | [] => ""
  | [(k, v)] => "\"" ++ jsonEscape k ++ "\":" ++ renderJson v
  | (k, v) :: rest =>
      "\"" ++ jsonEscape k ++ "\":" ++ renderJson v ++ "," ++ renderFields rest

end

/-- Marshalling of a `CustomObject`, following the Go struct tags
`item`, `isUpdated`, `isChecked` (field order as declared). -/
def toJson (o : CustomObject) : Json :=
  .obj [("item", .str o.item),
        ("isUpdated", .bool o.isUpdated),
        ("isChecked", .bool o.isChecked)]

def lookupField : List (String × Json) → String → Option Json
  | [], _ => none
  | (k, v) :: rest, key => if k = key then some v else lookupField rest key

/-- Unmarshalling of a `CustomObject` from a JSON value (the inverse
direction used by the downstream stages). -/
def fromJson : Json → Option CustomObject
  | .obj fields =>
      match lookupField fields "item", lookupField fields "isUpdated",
            lookupField fields "isChecked" with
      | some (.str item), some (.bool u), some (.bool c) =>
          some ⟨item, u, c⟩
      | _, _, _ => none
  | _ => none

/-- OpenTelemetry attribute values (the kinds this code uses). -/
inductive AttrValue where
  | str : String → AttrValue
  | int : Int → AttrValue
  | bool : Bool → AttrValue
  deriving DecidableEq, Repr

abbrev Attr := String × AttrValue

/-- `semconv.HTTPStatusCode n`. -/
def httpStatusCodeAttr (n : Int) : Attr := ("http.status_code", .int n)

/-- `semconv.OtelStatusCodeError`. -/
def otelStatusCodeError : Attr := ("otel.status_code", .str "ERROR")

/-- `semconv.OtelStatusDescription s`. -/
def otelStatusDescription (s : String) : Attr := ("otel.status_description", .str s)

inductive SpanKind where
  | server | client | producer | consumer | internal
  deriving DecidableEq, Repr

structure SpanEvent where
  name : String
  attrs : List Attr
  deriving DecidableEq, Repr

/-- A span as this code observes it: its name, kind, the attributes set on
it and the events added to it.  (The code never calls `SetStatus`; error
status is conveyed through the `otel.status_code` semconv attributes.) -/
structure Span where
  name : String
  kind : SpanKind
  attrs : List Attr
  events : List SpanEvent
  deriving DecidableEq, Repr

/-- A span carries an explicit error-status marking when the
`otel.status_code = ERROR` semconv attribute has been set on it. -/
def statusMarkedError (s : Span) : Bool :=
  s.attrs.contains otelStatusCodeError

def CUSTOM_OTEL_SPAN_EVENT_NAME : String := "LambdaCreateEvent"

/-- The environment variables the Go process reads at startup. -/
structure Env where
  OTEL_SERVICE_NAME : String
  INPUT_S3_BUCKET_NAME : String
  deriving DecidableEq, Repr

/-- The slice of `events.APIGatewayProxyRequest` the handler reads. -/
structure APIGatewayProxyRequest where
  httpMethod : String
  protocol : String
  resource : String
  headers : List (String × String)
  deriving DecidableEq, Repr

/-- Go map lookup on the request headers (missing key yields `""`). -/
def headerGet (req : APIGatewayProxyRequest) (k : String) : String :=
  (req.headers.lookup k).getD ""

structure APIGatewayProxyResponse where
  statusCode : Nat
  body : String
  deriving DecidableEq, Repr

/-- The `s3manager.UploadInput` fields the code fills in. -/
structure S3UploadInput where
  bucket : String
  key : String
  body : String
  deriving DecidableEq, Repr

/-- An S3 oracle: the outcome `UploadWithContext` would produce for a given
input — `none` for success, `some errText` for a failed upload. -/
def S3Oracle : Type := S3UploadInput → Option String

/-- Externally visible effects of one invocation, in issue order. -/
inductive Effect where
  | randDraw : Nat → Effect
  | s3Upload : S3UploadInput → Option String → Effect
  deriving DecidableEq, Repr

/-- `causeError` from `main.go`: fires when `randomizer.Intn(15)` draws the
sentinel `1`.  The draw is the oracle value of `Intn 15` for this call. -/
def causeError (draw : Nat) : Bool :=
  draw == 1

/-- `strconv.FormatInt x 10`: decimal string of the integer. -/
def formatInt10 (n : Int) : String := toString n

/-- `startParentSpan` from `main.go`: the root server span with its
inbound-protocol attributes. -/
def startParentSpan (_env : Env) (req : APIGatewayProxyRequest) : Span :=
  { name := "main.handler"
    kind := .server
    attrs :=
      [("faas.trigger", .str "http"),
       ("net.transport", .str "ip_tcp"),
       ("http.method", .str req.httpMethod),
       ("http.flavor", .str req.protocol),
       ("http.route", .str req.resource),
       ("http.target", .str req.resource),
       ("http.scheme", .str (headerGet req "X-Forwarded-Proto")),
       ("http.user_agent", .str (headerGet req "User-Agent")),
       ("net.host.name", .str (headerGet req "Host"))]
    events := [] }

/-- `startS3PutSpan` from `main.go`: the client span around the S3 put. -/
def startS3PutSpan : Span :=
  { name := "S3.PutObject"
    kind := .client
    attrs := [("net.transport", .str "ip_tcp")]
    events := [] }

/-- The `UploadInput` `storeObjectInS3` builds: bucket redirected to the
invalid target when injection fires, key the decimal millisecond
timestamp, body the serialized record. -/
def storeInput (env : Env) (draw : Nat) (nowMillis : Int) (jsonBody : String) :
    S3UploadInput :=
  { bucket := if causeError draw then "wrong-bucket-name" else env.INPUT_S3_BUCKET_NAME
    key := formatInt10 nowMillis
    body := jsonBody }

structure StoreResult where
  err : Option String
  span : Span
  effects : List Effect
  deriving Repr

/-- `storeObjectInS3` from `main.go`: starts the client span, consults the
fault injector, issues the upload, and on failure marks the client span
with the error-status attributes whose description carries the real error
text; the upload error is returned to the caller. -/
def storeObjectInS3 (env : Env) (draw : Nat) (nowMillis : Int)
    (s3 : S3Oracle) (jsonBody : String) : StoreResult :=
  let s3PutSpan := startS3PutSpan
  let input := storeInput env draw nowMillis jsonBody
  let res := s3 input
  match res with
  | some errText =>
      let msg := "Storing custom object into S3 is failed."
      { err := some errText
        span := { s3PutSpan with
                  attrs := s3PutSpan.attrs ++
                    [otelStatusCodeError,
                     otelStatusDescription (msg ++ ": " ++ errText)] }
        effects := [.randDraw draw, .s3Upload input res] }
  | none =>
      { err := none
        span := s3PutSpan
        effects := [.randDraw draw, .s3Upload input res] }

/-- The record the handler constructs (`body` in `main.go`). -/
def ingressRecord : CustomObject :=
  { item := "test", isUpdated := false, isChecked := false }

/-- `json.Marshal` specialised to `CustomObject` (it cannot fail on this
value type, hence always `some`). -/
def jsonMarshal (o : CustomObject) : Option String :=
  some (renderJson (toJson o))

/-- The serialized ingress record. -/
def ingressJsonBody : String := renderJson (toJson ingressRecord)

structure HandlerResult where
  response : APIGatewayProxyResponse
  err : Option String
  parentSpan : Span
  childSpan : Option Span
  effects : List Effect
  deriving Repr

/-- `handler` from `main.go`, parameterized over the marshaller so the
serialization-failure branch is expressible.  Returns the response, the
invocation's Go `error` result, the final root and child spans, and the
effect trace. -/
def handlerWith (marshal : CustomObject → Option String) (env : Env)
    (req : APIGatewayProxyRequest) (draw : Nat) (nowMillis : Int)
    (s3 : S3Oracle) : HandlerResult :=
  let parentSpan := startParentSpan env req
  let body := ingressRecord
  match marshal body with
  | none =>
      { response := { statusCode := 500, body := "Failed" }
        err := none
        parentSpan := parentSpan
        childSpan := none
        effects := [] }
  | some jsonBody =>
      let sres := storeObjectInS3 env draw nowMillis s3 jsonBody
      match sres.err with
      | some _ =>
          { response := { statusCode := 500, body := "Failed" }
            err := none
            parentSpan := { parentSpan with
              attrs := parentSpan.attrs ++ [httpStatusCodeAttr 500]
              events := parentSpan.events ++
                [{ name := CUSTOM_OTEL_SPAN_EVENT_NAME
                   attrs := [("is.successful", .bool false),
                             ("bucket.id", .str env.INPUT_S3_BUCKET_NAME)] }] }
            childSpan := some sres.span
            effects := sres.effects }
      | none =>
          { response := { statusCode := 200, body := jsonBody }
            err := none
            parentSpan := { parentSpan with
              attrs := parentSpan.attrs ++ [httpStatusCodeAttr 200]
              events := parentSpan.events ++
                [{ name := CUSTOM_OTEL_SPAN_EVENT_NAME
                   attrs := [("is.successful", .bool true),
                             ("bucket.id", .str env.INPUT_S3_BUCKET_NAME)] }] }
            childSpan := some sres.span
            effects := sres.effects }

/-- The handler as deployed: marshalling with `encoding/json`. -/
def handler (env : Env) (req : APIGatewayProxyRequest) (draw : Nat)
    (nowMillis : Int) (s3 : S3Oracle) : HandlerResult :=
  handlerWith jsonMarshal env req draw nowMillis s3

/-- The storage write of an invocation succeeded: its trace contains a
successful upload effect. -/
def writeSucceeded (r : HandlerResult) : Prop :=
  ∃ i, Effect.s3Upload i none ∈ r.effects

/-- Number of storage objects an effect trace creates (successful puts). -/
def createdObjects (effs : List Effect) : Nat :=
  (effs.filter fun e =>
    match e with
    | .s3Upload _ none => true
    | _ => false).length

/-- Modelled from the spec: the Transform Stage's record mutation (the
update handler's code is not under src).  "Reads the object, sets
isUpdated = true". -/
def transformRecord (r : CustomObject) : CustomObject :=
  { r with isUpdated := true }

/-- Modelled from the spec: the Verification Stage's record mutation (the
check handler's code is not under src, only its `CustomObject` DAO).
"asserts isUpdated == true; if true, sets isChecked = true; if the
precondition is violated ... does not mutate the record further". -/
def verifyRecord (r : CustomObject) : CustomObject :=
  if r.isUpdated then { r with isChecked := true } else r

/-- One downstream stage application to a pipeline record. -/
inductive PipelineStep : CustomObject → CustomObject → Prop
  | transform (r : CustomObject) : PipelineStep r (transformRecord r)
  | verify (r : CustomObject) : PipelineStep r (verifyRecord r)

/-- The records reachable in the pipeline: every record is created by
Ingress (as `ingressRecord`) and then flows through downstream stages, so
membership in this predicate is what "passed through Ingress" means. -/
inductive PassedIngress : CustomObject → Prop
  | ingress : PassedIngress ingressRecord
  | step {r r' : CustomObject} :
      PassedIngress r → PipelineStep r r' → PassedIngress r'

/-- Sample configuration for concrete executions. -/
def sampleEnv : Env :=
  { OTEL_SERVICE_NAME := "create-otel", INPUT_S3_BUCKET_NAME := "input-bucket" }

def sampleReq : APIGatewayProxyRequest :=
  { httpMethod := "POST"
    protocol := "HTTP/1.1"
    resource := "/create"
    headers := [("Host", "example.com"), ("User-Agent", "curl/8.0"),
                ("X-Forwarded-Proto", "https")] }

/-- An S3 collaborator whose uploads all succeed. -/
def s3Ok : S3Oracle := fun _ => none

/-- An S3 collaborator whose uploads all fail with a fixed error. -/
def s3Fail : S3Oracle := fun _ => some "AccessDenied"

/-- Evaluation of the handler when the upload succeeds. -/
theorem handler_success_eq (env : Env) (req : APIGatewayProxyRequest)
    (draw : Nat) (nowMillis : Int) (s3 : S3Oracle)
    (h : s3 (storeInput env draw nowMillis ingressJsonBody) = none) :
    handler env req draw nowMillis s3 =
      { response := { statusCode := 200, body := ingressJsonBody }
        err := none
        parentSpan := { startParentSpan env req with
          attrs := (startParentSpan env req).attrs ++ [httpStatusCodeAttr 200]
          events :=
            [{ name := CUSTOM_OTEL_SPAN_EVENT_NAME
               attrs := [("is.successful", .bool true),
                         ("bucket.id", .str env.INPUT_S3_BUCKET_NAME)] }] }
        childSpan := some startS3PutSpan
        effects := [.randDraw draw,
                    .s3Upload (storeInput env draw nowMillis ingressJsonBody) none] } := by
  unfold handler handlerWith jsonMarshal storeObjectInS3
  simp only [ingressJsonBody] at h
  simp [h, startParentSpan, ingressJsonBody]

/-- Evaluation of the handler when the upload fails. -/
theorem handler_failure_eq (env : Env) (req : APIGatewayProxyRequest)
    (draw : Nat) (nowMillis : Int) (s3 : S3Oracle) (e : String)
    (h : s3 (storeInput env draw nowMillis ingressJsonBody) = some e) :
    handler env req draw nowMillis s3 =
      { response := { statusCode := 500, body := "Failed" }
        err := none
        parentSpan := { startParentSpan env req with
          attrs := (startParentSpan env req).attrs ++ [httpStatusCodeAttr 500]
          events :=
            [{ name := CUSTOM_OTEL_SPAN_EVENT_NAME
               attrs := [("is.successful", .bool false),
                         ("bucket.id", .str env.INPUT_S3_BUCKET_NAME)] }] }
        childSpan := some { startS3PutSpan with
          attrs := startS3PutSpan.attrs ++
            [otelStatusCodeError,
             otelStatusDescription
               ("Storing custom object into S3 is failed." ++ ": " ++ e)] }
        effects := [.randDraw draw,
                    .s3Upload (storeInput env draw nowMillis ingressJsonBody)
                      (some e)] } := by
  unfold handler handlerWith jsonMarshal storeObjectInS3
  simp only [ingressJsonBody] at h
  simp [h, startParentSpan, ingressJsonBody]

/-- C9: serializing a `CustomObject` to JSON and deserializing the result
yields a record equal field-for-field (item, isUpdated, isChecked) to the
original. -/
theorem json_roundtrip (o : CustomObject) : fromJson (toJson o) = some o := by
  rfl

/-- C10: the Go Ingress handler returns a nil `error` to its invoker on
every code path (serialization failure, storage-write failure, success);
failures are signaled only through the response. -/
theorem handler_error_result_nil (marshal : CustomObject → Option String)
    (env : Env) (req : APIGatewayProxyRequest) (draw : Nat) (nowMillis : Int)
    (s3 : S3Oracle) :
    (handlerWith marshal env req draw nowMillis s3).err = none := by
  cases h : marshal ingressRecord with
  | none => simp [handlerWith, h]
  | some jsonBody =>
      cases h2 : s3 (storeInput env draw nowMillis jsonBody) with
      | none => simp [handlerWith, storeObjectInS3, h, h2]
      | some e => simp [handlerWith, storeObjectInS3, h, h2]

/-- The effect trace of one `storeObjectInS3` call: the fault-injector
draw, then the single upload against the derived input. -/
theorem storeObjectInS3_effects (env : Env) (draw : Nat) (nowMillis : Int)
    (s3 : S3Oracle) (jsonBody : String) :
    (storeObjectInS3 env draw nowMillis s3 jsonBody).effects =
      [Effect.randDraw draw,
       Effect.s3Upload (storeInput env draw nowMillis jsonBody)
         (s3 (storeInput env draw nowMillis jsonBody))] := by
  cases h : s3 (storeInput env draw nowMillis jsonBody) with
  | none => simp [storeObjectInS3, h]
  | some e => simp [storeObjectInS3, h]

/-- C2: on every storage-write attempt the fault injector is consulted
(the random draw appears in the trace) before the upload is issued; with
the draw taken from the range 0 ≤ draw < 15 of `Intn 15`, injection fires
exactly when the draw equals the sentinel 1, i.e. for exactly one of the
15 equally likely draws (a 1-in-15 rate per write). -/
theorem fault_injector_contract (env : Env) (draw : Nat) (nowMillis : Int)
    (s3 : S3Oracle) (jsonBody : String) (h : draw < 15) :
    draw ∈ Finset.range 15 ∧
    (∃ res, (storeObjectInS3 env draw nowMillis s3 jsonBody).effects =
      [Effect.randDraw draw,
       Effect.s3Upload (storeInput env draw nowMillis jsonBody) res]) ∧
    (causeError draw = true ↔ draw = 1) ∧
    ((Finset.range 15).filter (fun d => causeError d = true)).card = 1 := by
  refine ⟨Finset.mem_range.mpr h,
    ⟨s3 (storeInput env draw nowMillis jsonBody),
     storeObjectInS3_effects env draw nowMillis s3 jsonBody⟩, ?_, ?_⟩
  · simp [causeError]
  · decide

theorem fault_injector_contract_witness :
    (1 : Nat) ∈ Finset.range 15 ∧
    (∃ res, (storeObjectInS3 sampleEnv 1 1700000000000 s3Ok ingressJsonBody).effects =
      [Effect.randDraw 1,
       Effect.s3Upload (storeInput sampleEnv 1 1700000000000 ingressJsonBody) res]) ∧
    (causeError 1 = true ↔ 1 = 1) ∧
    ((Finset.range 15).filter (fun d => causeError d = true)).card = 1 :=
  fault_injector_contract sampleEnv 1 1700000000000 s3Ok ingressJsonBody (by decide)

/-- C4: when fault injection fires, only the write target changes: the
derived key and the payload passed to the upload are identical to the
non-injected ones, the body is the serialized record unchanged, and the
bucket is redirected to the invalid target. -/
theorem injection_frame_property (env : Env) (draw draw' : Nat)
    (nowMillis : Int) (s3 : S3Oracle) (jsonBody : String)
    (h1 : causeError draw = true) (h2 : causeError draw' = false) :
    (storeInput env draw nowMillis jsonBody).key =
      (storeInput env draw' nowMillis jsonBody).key ∧
    (storeInput env draw nowMillis jsonBody).body =
      (storeInput env draw' nowMillis jsonBody).body ∧
    (storeInput env draw nowMillis jsonBody).body = jsonBody ∧
    (storeInput env draw nowMillis jsonBody).bucket = "wrong-bucket-name" ∧
    (storeInput env draw' nowMillis jsonBody).bucket = env.INPUT_S3_BUCKET_NAME ∧
    (storeObjectInS3 env draw nowMillis s3 jsonBody).effects =
      [Effect.randDraw draw,
       Effect.s3Upload (storeInput env draw nowMillis jsonBody)
         (s3 (storeInput env draw nowMillis jsonBody))] := by
  refine ⟨rfl, ?_, rfl, ?_, ?_,
    storeObjectInS3_effects env draw nowMillis s3 jsonBody⟩
  · simp [storeInput]
  · simp [storeInput, h1]
  · simp [storeInput, h2]

theorem injection_frame_property_witness :
    (storeInput sampleEnv 1 1700000000000 ingressJsonBody).key =
      (storeInput sampleEnv 0 1700000000000 ingressJsonBody).key ∧
    (storeInput sampleEnv 1 1700000000000 ingressJsonBody).body =
      (storeInput sampleEnv 0 1700000000000 ingressJsonBody).body ∧
    (storeInput sampleEnv 1 1700000000000 ingressJsonBody).body = ingressJsonBody ∧
    (storeInput sampleEnv 1 1700000000000 ingressJsonBody).bucket = "wrong-bucket-name" ∧
    (storeInput sampleEnv 0 1700000000000 ingressJsonBody).bucket =
      sampleEnv.INPUT_S3_BUCKET_NAME ∧
    (storeObjectInS3 sampleEnv 1 1700000000000 s3Ok ingressJsonBody).effects =
      [Effect.randDraw 1,
       Effect.s3Upload (storeInput sampleEnv 1 1700000000000 ingressJsonBody)
         (s3Ok (storeInput sampleEnv 1 1700000000000 ingressJsonBody))] :=
  injection_frame_property sampleEnv 1 0 1700000000000 s3Ok ingressJsonBody rfl rfl

/-- C5: for every record reachable in the pipeline (i.e. one that passed
through Ingress), isChecked = true implies isUpdated = true, and no
pipeline stage ever sets a flag from true back to false (monotonic flag
progression). -/
theorem flag_monotonic_invariant :
    (∀ r : CustomObject, PassedIngress r → r.isChecked = true → r.isUpdated = true) ∧
    (∀ r r' : CustomObject, PipelineStep r r' →
      (r.isUpdated = true → r'.isUpdated = true) ∧
      (r.isChecked = true → r'.isChecked = true)) := by
  have mono : ∀ r r' : CustomObject, PipelineStep r r' →
      (r.isUpdated = true → r'.isUpdated = true) ∧
      (r.isChecked = true → r'.isChecked = true) := by
    intro r r' hstep
    cases hstep with
    | transform => exact ⟨fun _ => rfl, fun hc => hc⟩
    | verify =>
        cases hu : r.isUpdated with
        | true => exact ⟨fun _ => by simp [verifyRecord, hu], fun _ => by simp [verifyRecord, hu]⟩
        | false =>
            refine ⟨fun h => ?_, fun h => by simp [verifyRecord, hu, h]⟩
            simp at h
  refine ⟨?_, mono⟩
  intro r hr
  induction hr with
  | ingress => intro hc; simp [ingressRecord] at hc
  | step hprev hstep ih =>
      rename_i r₀ r₁
      cases hstep with
      | transform => intro _; rfl
      | verify =>
          cases hu : r₀.isUpdated with
          | true => intro _; simp [verifyRecord, hu]
          | false =>
              intro hc
              simp [verifyRecord, hu] at hc
              exact absurd (ih hc) (by simp [hu])

theorem flag_monotonic_invariant_witness :
    (verifyRecord (transformRecord ingressRecord)).isUpdated = true :=
  flag_monotonic_invariant.1 (verifyRecord (transformRecord ingressRecord))
    (PassedIngress.step
      (PassedIngress.step PassedIngress.ingress (PipelineStep.transform ingressRecord))
      (PipelineStep.verify (transformRecord ingressRecord)))
    rfl

/-- C1: for every Ingress invocation, the response status code is 200 iff
the storage write for that invocation succeeded, and the body of every 200
response is valid JSON deserializing to the record
item="test", isUpdated=false, isChecked=false. -/
theorem ingress_status_iff_write_success (env : Env)
    (req : APIGatewayProxyRequest) (draw : Nat) (nowMillis : Int)
    (s3 : S3Oracle) :
    ((handler env req draw nowMillis s3).response.statusCode = 200 ↔
      writeSucceeded (handler env req draw nowMillis s3)) ∧
    ((handler env req draw nowMillis s3).response.statusCode = 200 →
      ∃ j, renderJson j = (handler env req draw nowMillis s3).response.body ∧
        fromJson j = some { item := "test", isUpdated := false, isChecked := false }) := by
  cases h : s3 (storeInput env draw nowMillis ingressJsonBody) with
  | none =>
      rw [handler_success_eq env req draw nowMillis s3 h]
      refine ⟨⟨fun _ => ⟨storeInput env draw nowMillis ingressJsonBody, by simp⟩,
               fun _ => rfl⟩, fun _ => ⟨toJson ingressRecord, rfl, rfl⟩⟩
  | some e =>
      rw [handler_failure_eq env req draw nowMillis s3 e h]
      refine ⟨⟨fun habs => absurd habs (by simp), fun hw => ?_⟩,
              fun habs => absurd habs (by simp)⟩
      rcases hw with ⟨i, hi⟩
      simp [writeSucceeded] at hi

theorem ingress_status_iff_write_success_witness :
    ((handler sampleEnv sampleReq 0 1700000000000 s3Ok).response.statusCode = 200 ↔
      writeSucceeded (handler sampleEnv sampleReq 0 1700000000000 s3Ok)) ∧
    ((handler sampleEnv sampleReq 0 1700000000000 s3Ok).response.statusCode = 200 →
      ∃ j, renderJson j = (handler sampleEnv sampleReq 0 1700000000000 s3Ok).response.body ∧
        fromJson j = some { item := "test", isUpdated := false, isChecked := false }) :=
  ingress_status_iff_write_success sampleEnv sampleReq 0 1700000000000 s3Ok

/-- C3 counterexample: at a concrete invocation whose storage write fails,
the handler does return 500, but the root span carries no error-status
marking — `main.go` never sets a span status (nor the `otel.status_code`
semconv attribute) on the parent span; it only sets the
`http.status_code = 500` attribute. -/
theorem root_span_error_status_cex :
    (handler sampleEnv sampleReq 0 1700000000000 s3Fail).response.statusCode = 500 ∧
    statusMarkedError (handler sampleEnv sampleReq 0 1700000000000 s3Fail).parentSpan = false := by
  exact ⟨rfl, rfl⟩

/-- C3 (amended): on storage-write failure in Ingress, the root span
receives the `http.status_code = 500` attribute (rather than an explicit
error-status marking), the terminal outcome event with
is.successful=false and the bucket identifier is attached to the root
span, and the handler returns a 500 response with the fixed body
"Failed". -/
theorem root_span_failure_marking (env : Env) (req : APIGatewayProxyRequest)
    (draw : Nat) (nowMillis : Int) (s3 : S3Oracle) (e : String)
    (h : s3 (storeInput env draw nowMillis ingressJsonBody) = some e) :
    httpStatusCodeAttr 500 ∈ (handler env req draw nowMillis s3).parentSpan.attrs ∧
    ({ name := CUSTOM_OTEL_SPAN_EVENT_NAME
       attrs := [("is.successful", AttrValue.bool false),
                 ("bucket.id", AttrValue.str env.INPUT_S3_BUCKET_NAME)] } : SpanEvent) ∈
      (handler env req draw nowMillis s3).parentSpan.events ∧
    (handler env req draw nowMillis s3).response =
      { statusCode := 500, body := "Failed" } := by
  rw [handler_failure_eq env req draw nowMillis s3 e h]
  exact ⟨by simp, by simp, rfl⟩

theorem root_span_failure_marking_witness :
    httpStatusCodeAttr 500 ∈
      (handler sampleEnv sampleReq 0 1700000000000 s3Fail).parentSpan.attrs ∧
    ({ name := CUSTOM_OTEL_SPAN_EVENT_NAME
       attrs := [("is.successful", AttrValue.bool false),
                 ("bucket.id", AttrValue.str sampleEnv.INPUT_S3_BUCKET_NAME)] } : SpanEvent) ∈
      (handler sampleEnv sampleReq 0 1700000000000 s3Fail).parentSpan.events ∧
    (handler sampleEnv sampleReq 0 1700000000000 s3Fail).response =
      { statusCode := 500, body := "Failed" } :=
  root_span_failure_marking sampleEnv sampleReq 0 1700000000000 s3Fail "AccessDenied" rfl

/-- C6: on a failed storage write (injected or real), the child client
span records the error status (the `otel.status_code = ERROR` attribute)
with a description containing the real error text of the underlying call,
and `storeObjectInS3` returns that error to its caller. -/
theorem store_failure_span_and_error (env : Env) (draw : Nat)
    (nowMillis : Int) (s3 : S3Oracle) (jsonBody : String) (e : String)
    (h : s3 (storeInput env draw nowMillis jsonBody) = some e) :
    (storeObjectInS3 env draw nowMillis s3 jsonBody).err = some e ∧
    (storeObjectInS3 env draw nowMillis s3 jsonBody).span.kind = SpanKind.client ∧
    statusMarkedError (storeObjectInS3 env draw nowMillis s3 jsonBody).span = true ∧
    otelStatusDescription ("Storing custom object into S3 is failed." ++ ": " ++ e) ∈
      (storeObjectInS3 env draw nowMillis s3 jsonBody).span.attrs ∧
    (∃ pre post, "Storing custom object into S3 is failed." ++ ": " ++ e =
      pre ++ e ++ post) := by
  have hs : storeObjectInS3 env draw nowMillis s3 jsonBody =
      { err := some e
        span := { startS3PutSpan with
          attrs := startS3PutSpan.attrs ++
            [otelStatusCodeError,
             otelStatusDescription
               ("Storing custom object into S3 is failed." ++ ": " ++ e)] }
        effects := [.randDraw draw,
                    .s3Upload (storeInput env draw nowMillis jsonBody) (some e)] } := by
    simp [storeObjectInS3, h]
  rw [hs]
  refine ⟨rfl, rfl, rfl, by simp,
    ⟨"Storing custom object into S3 is failed." ++ ": ", "", ?_⟩⟩
  rw [String.append_empty]

theorem store_failure_span_and_error_witness :
    (storeObjectInS3 sampleEnv 0 1700000000000 s3Fail ingressJsonBody).err = some "AccessDenied" ∧
    (storeObjectInS3 sampleEnv 0 1700000000000 s3Fail ingressJsonBody).span.kind = SpanKind.client ∧
    statusMarkedError (storeObjectInS3 sampleEnv 0 1700000000000 s3Fail ingressJsonBody).span = true ∧
    otelStatusDescription ("Storing custom object into S3 is failed." ++ ": " ++ "AccessDenied") ∈
      (storeObjectInS3 sampleEnv 0 1700000000000 s3Fail ingressJsonBody).span.attrs ∧
    (∃ pre post, "Storing custom object into S3 is failed." ++ ": " ++ "AccessDenied" =
      pre ++ "AccessDenied" ++ post) :=
  store_failure_span_and_error sampleEnv 0 1700000000000 s3Fail ingressJsonBody
    "AccessDenied" rfl

/-- C7: on serialization failure, the handler returns a 500 response, no
storage write is attempted (the effect trace is empty), and the root span
receives neither a status marking (no http.status_code attribute, no
error-status attribute) nor any terminal outcome event. -/
theorem marshal_failure_unreported (marshal : CustomObject → Option String)
    (env : Env) (req : APIGatewayProxyRequest) (draw : Nat) (nowMillis : Int)
    (s3 : S3Oracle) (h : marshal ingressRecord = none) :
    (handlerWith marshal env req draw nowMillis s3).response =
      { statusCode := 500, body := "Failed" } ∧
    (handlerWith marshal env req draw nowMillis s3).effects = [] ∧
    (handlerWith marshal env req draw nowMillis s3).parentSpan.events = [] ∧
    (∀ n : Int, httpStatusCodeAttr n ∉
      (handlerWith marshal env req draw nowMillis s3).parentSpan.attrs) ∧
    statusMarkedError (handlerWith marshal env req draw nowMillis s3).parentSpan = false := by
  have hr : handlerWith marshal env req draw nowMillis s3 =
      { response := { statusCode := 500, body := "Failed" }
        err := none
        parentSpan := startParentSpan env req
        childSpan := none
        effects := [] } := by
    simp [handlerWith, h]
  rw [hr]
  refine ⟨rfl, rfl, rfl, ?_, rfl⟩
  intro n
  simp [startParentSpan, httpStatusCodeAttr]

theorem marshal_failure_unreported_witness :
    (handlerWith (fun _ => none) sampleEnv sampleReq 0 1700000000000 s3Ok).response =
      { statusCode := 500, body := "Failed" } ∧
    (handlerWith (fun _ => none) sampleEnv sampleReq 0 1700000000000 s3Ok).effects = [] ∧
    (handlerWith (fun _ => none) sampleEnv sampleReq 0 1700000000000 s3Ok).parentSpan.events = [] ∧
    (∀ n : Int, httpStatusCodeAttr n ∉
      (handlerWith (fun _ => none) sampleEnv sampleReq 0 1700000000000 s3Ok).parentSpan.attrs) ∧
    statusMarkedError
      (handlerWith (fun _ => none) sampleEnv sampleReq 0 1700000000000 s3Ok).parentSpan = false :=
  marshal_failure_unreported (fun _ => none) sampleEnv sampleReq 0 1700000000000 s3Ok rfl

/-- C8: the storage key of every write issued by an invocation is the
decimal-string representation of the millisecond timestamp taken at call
time, and a successful invocation creates exactly one storage object. -/
theorem write_key_and_single_object (env : Env) (req : APIGatewayProxyRequest)
    (draw : Nat) (nowMillis : Int) (s3 : S3Oracle) :
    (∀ i res, Effect.s3Upload i res ∈ (handler env req draw nowMillis s3).effects →
      i.key = formatInt10 nowMillis) ∧
    ((handler env req draw nowMillis s3).response.statusCode = 200 →
      createdObjects (handler env req draw nowMillis s3).effects = 1) := by
  cases h : s3 (storeInput env draw nowMillis ingressJsonBody) with
  | none =>
      rw [handler_success_eq env req draw nowMillis s3 h]
      refine ⟨?_, fun _ => rfl⟩
      intro i res hi
      simp at hi
      rcases hi with ⟨hi, -⟩
      rw [hi]
      rfl
  | some e =>
      rw [handler_failure_eq env req draw nowMillis s3 e h]
      refine ⟨?_, fun habs => absurd habs (by simp)⟩
      intro i res hi
      simp at hi
      rcases hi with ⟨hi, -⟩
      rw [hi]
      rfl

theorem write_key_and_single_object_witness :
    (∀ i res, Effect.s3Upload i res ∈
        (handler sampleEnv sampleReq 0 1700000000000 s3Ok).effects →
      i.key = formatInt10 1700000000000) ∧
    ((handler sampleEnv sampleReq 0 1700000000000 s3Ok).response.statusCode = 200 →
      createdObjects (handler sampleEnv sampleReq 0 1700000000000 s3Ok).effects = 1) :=
  write_key_and_single_object sampleEnv sampleReq 0 1700000000000 s3Ok

end LambdaOtel
